import Mathlib

/-!
Verification of the `py_xre_tiff` XRE TIFF codec.

The embedding models the numeric pipeline of `src/py_xre_tiff/__init__.py`:
grids of samples, the TIFF container as a record of samples plus tag strings
(the byte-exact container layout is delegated to the underlying image library
and is modelled as faithful transport), numpy dtype casts as exact functions
on `ℚ`, Python's `%.6E` float formatting, and the regex-plus-`float()`
calibration-tag parsing of `_extract_slope_offset`.

Machine floats are idealised as exact rationals; `astype(np.uint16)` applied
to a float array is modelled as truncation toward zero followed by reduction
modulo 2^16 (the two's-complement wrap observed for out-of-range values),
while `np.clip(·, 0, 65535).astype(np.uint16)` is the clamped truncation.
-/

namespace XreTiff

/-- A grid of stored 16-bit samples (mirrors a `uint16` numpy array:
shape plus row-major data). -/
structure U16Grid where
  width : ℕ
  height : ℕ
  pixels : List ℕ
deriving DecidableEq

/-- A grid of floating-point samples, idealised over `ℚ`
(mirrors a float numpy array). -/
structure FloatGrid where
  width : ℕ
  height : ℕ
  pixels : List ℚ
deriving DecidableEq

/-- A numpy array tagged by dtype, as inspected by `data.dtype != np.uint16`. -/
inductive NDArray where
  | u16 (g : U16Grid)
  | f32 (g : FloatGrid)
deriving DecidableEq

/-- The observable content of a written XRE TIFF file: dimensions, the
16-bit pixel strip, and the ImageDescription / Software tags.  The byte-level
TIFF layout is handled by the image library and round-trips these fields. -/
structure XreFile where
  width : ℕ
  height : ℕ
  samples : List ℕ
  description : Option String
  software : Option String
deriving DecidableEq

/-- Errors surfaced by the Python code: the explicit
`ValueError("Slope cannot be zero when rescaling")` raised by `write_xre_tif`,
and the `ValueError` raised by `float()` on an unparsable literal. -/
inductive XreErr where
  | slopeZero
  | badFloatLit
deriving DecidableEq

/-- Truncation toward zero of a rational, as performed by a float-to-integer
C cast. -/
def truncQ (x : ℚ) : ℤ :=
  if x < 0 then -(⌊-x⌋) else ⌊x⌋

/-- `astype(np.uint16)` on a float value: truncate toward zero, then wrap
modulo 2^16 (two's-complement behaviour of the narrowing cast). -/
def astypeU16 (x : ℚ) : ℕ :=
  (Int.emod (truncQ x) 65536).toNat

/-- `np.clip(x, 0, 65535).astype(np.uint16)` on a float value: clamp into
`[0, 65535]`, then truncate toward zero (truncation equals floor on the
clamped, non-negative value). -/
def clipCastU16 (x : ℚ) : ℕ :=
  if x ≤ 0 then 0 else if (65535 : ℚ) ≤ x then 65535 else (⌊x⌋).toNat

/-- Number of decimal digits, fuel-driven so that the kernel can evaluate it. -/
def natDigitsAux : ℕ → ℕ → ℕ
  | 0, _ => 1
  | fuel + 1, n => if n < 10 then 1 else natDigitsAux fuel (n / 10) + 1

/-- Number of decimal digits of `n` (1 for `n = 0`). -/
def natDigits (n : ℕ) : ℕ :=
  natDigitsAux n n

/-- The ASCII digit character for `d < 10`. -/
def digitChar (d : ℕ) : Char :=
  Char.ofNat (48 + d)

/-- Decimal digit characters of `n`, most significant first (fuel-driven). -/
def natToDigitList : ℕ → ℕ → List Char → List Char
  | 0, _, acc => acc
  | fuel + 1, n, acc =>
    if n < 10 then digitChar n :: acc
    else natToDigitList fuel (n / 10) (digitChar (n % 10) :: acc)

/-- Round `N / D` (with `D > 0`) to the nearest integer, ties to even —
the rounding used when printing a value in scientific notation. -/
def rhe (N D : ℕ) : ℕ :=
  let f := N / D
  let r := N % D
  if 2 * r < D then f
  else if D < 2 * r then f + 1
  else if f % 2 = 0 then f else f + 1

/-- Least `k` with `a * 10^k ≥ b`, fuel-driven. -/
def smallExpAux : ℕ → ℕ → ℕ → ℕ
  | 0, _, _ => 0
  | fuel + 1, a, b => if b ≤ a then 0 else smallExpAux fuel (a * 10) b + 1

/-- Decimal exponent of the positive rational `a / b` (both nonzero):
the unique `e` with `10^e ≤ a/b < 10^(e+1)`. -/
def decExpNat (a b : ℕ) : ℤ :=
  if b ≤ a then (natDigits (a / b) : ℤ) - 1
  else -(smallExpAux (natDigits b + 1) a b : ℤ)

/-- Exponent and 7-digit mantissa (in `[10^6, 10^7)`) of the positive
rational `a / b`, rounding the mantissa half-to-even and carrying into the
exponent when rounding overflows to `10^7`. -/
def sci6Parts (a b : ℕ) : ℤ × ℕ :=
  let e := decExpNat a b
  let k : ℤ := 6 - e
  let m := if 0 ≤ k then rhe (a * 10 ^ k.toNat) b else rhe a (b * 10 ^ (-k).toNat)
  if m = 10 ^ 7 then (e + 1, 10 ^ 6) else (e, m)

/-- Pad a digit list on the left with zeros to width two, as Python does for
the exponent field of `%E`. -/
def padLeft2 (s : List Char) : List Char :=
  if s.length < 2 then digitChar 0 :: s else s

/-- The exponent field of Python's `%E`: explicit sign and at least two
digits. -/
def expString (e : ℤ) : String :=
  (if e < 0 then "-" else "+") ++
    String.mk (padLeft2 (natToDigitList (e.natAbs + 1) e.natAbs []))

/-- The seven mantissa digit characters. -/
def sevenDigits (m : ℕ) : List Char :=
  natToDigitList (m + 1) m []

/-- Python's `f"{q:.6E}"` on a finite value, idealised over `ℚ`:
scientific notation with one leading digit, six fractional digits
(rounded half-to-even), `E`, and a signed two-or-more digit exponent. -/
def pyFormatSci6 (q : ℚ) : String :=
  if q = 0 then "0.000000E+00"
  else
    let p := sci6Parts q.num.natAbs q.den
    let ds := sevenDigits p.2
    (if q.num < 0 then "-" else "") ++ String.mk [ds.headD (digitChar 0)] ++
      "." ++ String.mk ds.tail ++ "E" ++ expString p.1

/-- The description tag written by `write_xre_tif`:
`f"slope = {slope:.6E} offset = {offset:.6E}"`. -/
def descString (slope offset : ℚ) : String :=
  "slope = " ++ pyFormatSci6 slope ++ " offset = " ++ pyFormatSci6 offset

/-- Python's `\s` (whitespace) character class, ASCII range. -/
def isPySpace (c : Char) : Bool :=
  c = ' ' || c = '\t' || c = '\n' || c = '\r' || c = '\x0b' || c = '\x0c'

/-- The character class `[\d.Ee+-]` of the calibration regexes
(`\d` taken in its ASCII range). -/
def isNumTokChar (c : Char) : Bool :=
  c.isDigit || c = '.' || c = 'e' || c = 'E' || c = '+' || c = '-'

/-- Match the literal key (given in lowercase) case-insensitively at the head
of the input, returning the remainder. -/
def stripKey : List Char → List Char → Option (List Char)
  | [], s => some s
  | _ :: _, [] => none
  | k :: ks, c :: cs => if Char.toLower c = k then stripKey ks cs else none

/-- Drop the longest `\s*` run. -/
def dropPySpaces : List Char → List Char
  | [] => []
  | c :: cs => if isPySpace c then dropPySpaces cs else c :: cs

/-- The longest (greedy) `[\d.Ee+-]*` run at the head of the input. -/
def takeNumTok : List Char → List Char
  | [] => []
  | c :: cs => if isNumTokChar c then c :: takeNumTok cs else []

/-- Match the whole regex `key\s*=\s*([\d.Ee+-]+)` at this position
(case-insensitively) and return the captured group. -/
def matchKeyAt (key : List Char) (s : List Char) : Option (List Char) :=
  match stripKey key s with
  | none => none
  | some rest =>
    match dropPySpaces rest with
    | [] => none
    | c :: cs =>
      if c = '=' then
        match takeNumTok (dropPySpaces cs) with
        | [] => none
        | t :: ts => some (t :: ts)
      else none

/-- `re.search` for `key\s*=\s*([\d.Ee+-]+)` with `re.IGNORECASE`:
the captured group of the leftmost match, if any. -/
def searchKey (key : List Char) : List Char → Option (List Char)
  | [] => matchKeyAt key []
  | c :: cs =>
    match matchKeyAt key (c :: cs) with
    | some tok => some tok
    | none => searchKey key cs

/-- The key characters of the slope regex. -/
def slopeKey : List Char := ['s', 'l', 'o', 'p', 'e']

/-- The key characters of the offset regex. -/
def offsetKey : List Char := ['o', 'f', 'f', 's', 'e', 't']

/-- The longest digit run at the head of the input, plus the remainder. -/
def takeDigits : List Char → List Char × List Char
  | [] => ([], [])
  | c :: cs =>
    if c.isDigit then
      let p := takeDigits cs
      (c :: p.1, p.2)
    else ([], c :: cs)

/-- Value of a list of decimal digit characters. -/
def digitsToNat (ds : List Char) : ℕ :=
  ds.foldl (fun a c => 10 * a + (c.toNat - 48)) 0

/-- A parsed Python float literal: sign, the integer-plus-fraction digits as
one natural number, the number of fraction digits, and the signed exponent. -/
structure DecLit where
  neg : Bool
  mant : ℕ
  fracLen : ℕ
  expNeg : Bool
  expAbs : ℕ
deriving DecidableEq

/-- Consume an optional sign. -/
def parseSign : List Char → Bool × List Char
  | '-' :: cs => (true, cs)
  | '+' :: cs => (false, cs)
  | cs => (false, cs)

/-- Consume `digits [. digits]` or `. digits` (at least one digit in total),
returning the digits' value, the fraction length, and the remainder. -/
def parseMant (cs : List Char) : Option (ℕ × ℕ × List Char) :=
  let p1 := takeDigits cs
  match p1.2 with
  | '.' :: r2 =>
    let p2 := takeDigits r2
    if p1.1.isEmpty && p2.1.isEmpty then none
    else some (digitsToNat (p1.1 ++ p2.1), p2.1.length, p2.2)
  | _ => if p1.1.isEmpty then none else some (digitsToNat p1.1, 0, p1.2)

/-- Consume an optional exponent `([eE] [+-]? digits)`, returning its sign,
absolute value, and the remainder. -/
def parseExpPart (cs : List Char) : Option (Bool × ℕ × List Char) :=
  match cs with
  | 'e' :: r1 =>
    let sp := parseSign r1
    let dp := takeDigits sp.2
    if dp.1.isEmpty then none else some (sp.1, digitsToNat dp.1, dp.2)
  | 'E' :: r1 =>
    let sp := parseSign r1
    let dp := takeDigits sp.2
    if dp.1.isEmpty then none else some (sp.1, digitsToNat dp.1, dp.2)
  | _ => some (false, 0, cs)

/-- Python's `float()` applied to a string over the alphabet `[\d.Ee+-]`:
`[+-]? (digits [. digits?] | . digits) ([eE] [+-]? digits)?`, whole input.
Returns the structured literal, or `none` when `float()` would raise
`ValueError`. -/
def parsePyFloatLit (cs : List Char) : Option DecLit :=
  let sp := parseSign cs
  match parseMant sp.2 with
  | none => none
  | some (m, fl, r2) =>
    match parseExpPart r2 with
    | none => none
    | some (es, ea, r3) =>
      if r3.isEmpty then some ⟨sp.1, m, fl, es, ea⟩ else none

/-- The exact rational value of a parsed float literal. -/
def DecLit.value (d : DecLit) : ℚ :=
  let base : ℚ := (d.mant : ℚ) / (10 : ℚ) ^ d.fracLen
  let scaled := if d.expNeg then base / (10 : ℚ) ^ d.expAbs
                else base * (10 : ℚ) ^ d.expAbs
  if d.neg then -scaled else scaled

/-- `_extract_slope_offset`: search the description for the slope and offset
patterns (independently, case-insensitively), then convert each captured
group with `float()` — slope first, so a `ValueError` there is raised before
the offset conversion.  An absent or empty description (the `if desc:` guard)
yields the defaults `(1.0, 0.0)`, as does each field whose pattern has no
match. -/
def extractSlopeOffset (desc : Option String) : Except XreErr (ℚ × ℚ) :=
  match desc with
  | none => .ok (1, 0)
  | some d =>
    if d.data.isEmpty then .ok (1, 0)
    else
      match searchKey slopeKey d.data, searchKey offsetKey d.data with
      | some t, some t2 =>
        match parsePyFloatLit t with
        | none => .error .badFloatLit
        | some lit =>
          match parsePyFloatLit t2 with
          | none => .error .badFloatLit
          | some lit2 => .ok (lit.value, lit2.value)
      | some t, none =>
        match parsePyFloatLit t with
        | none => .error .badFloatLit
        | some lit => .ok (lit.value, 0)
      | none, some t2 =>
        match parsePyFloatLit t2 with
        | none => .error .badFloatLit
        | some lit2 => .ok (1, lit2.value)
      | none, none => .ok (1, 0)

/-- `write_xre_tif(path, data, rescale, slope, offset)`.
With `rescale` and a non-`uint16` array it converts via
`((data - offset) / slope).astype(np.uint16)` after rejecting `slope == 0`;
otherwise a non-`uint16` array is clipped to `[0, 65535]` and cast, and a
`uint16` array passes through verbatim.  The description tag always records
`slope` and `offset` in the fixed format, and the software tag is
`'py_xre_tiff'`.  An error means the function raised before `img.save`, so
no file content was produced. -/
def write_xre_tif (data : NDArray) (rescale : Bool) (slope offset : ℚ) :
    Except XreErr XreFile :=
  match data, rescale with
  | .f32 g, true =>
    if slope = 0 then .error .slopeZero
    else .ok { width := g.width, height := g.height,
               samples := g.pixels.map (fun x => astypeU16 ((x - offset) / slope)),
               description := some (descString slope offset),
               software := some "py_xre_tiff" }
  | .f32 g, false =>
    .ok { width := g.width, height := g.height,
          samples := g.pixels.map clipCastU16,
          description := some (descString slope offset),
          software := some "py_xre_tiff" }
  | .u16 g, _ =>
    .ok { width := g.width, height := g.height, samples := g.pixels,
          description := some (descString slope offset),
          software := some "py_xre_tiff" }

/-- `read_xre_tif(path, rescale)`: the `uint16` samples as stored when
`rescale=False`; when `rescale=True`, parse the calibration from the
description tag and return `data.astype(np.float32) * slope + offset`. -/
def read_xre_tif (f : XreFile) (rescale : Bool) : Except XreErr NDArray :=
  match rescale with
  | false => .ok (.u16 { width := f.width, height := f.height, pixels := f.samples })
  | true =>
    match extractSlopeOffset f.description with
    | .error e => .error e
    | .ok so =>
      .ok (.f32 { width := f.width, height := f.height,
                  pixels := f.samples.map (fun s : ℕ => (s : ℚ) * so.1 + so.2) })

/-- Write followed by read, both with `rescale=True`. -/
def rtri (data : NDArray) (slope offset : ℚ) : Except XreErr NDArray :=
  (write_xre_tif data true slope offset).bind (fun f => read_xre_tif f true)

/-- Modelled from the spec: `toStored` as §4.1 words it — compute
`(physical - offset) / slope`, truncate toward zero, and clamp into
`[0, 65535]` before the integer cast.  This is the spec-side definition used
to compare against the code's actual conversion. -/
def specToStored (x slope offset : ℚ) : ℕ :=
  (max 0 (min (truncQ ((x - offset) / slope)) 65535)).toNat

/-- The sample list of a successful write. -/
def writtenSamples (r : Except XreErr XreFile) : Option (List ℕ) :=
  match r with
  | .ok f => some f.samples
  | .error _ => none

/-- The description tag of a successful write. -/
def writtenDescription (r : Except XreErr XreFile) : Option (Option String) :=
  match r with
  | .ok f => some f.description
  | .error _ => none

/-- The pixel list of a successful float read. -/
def readPixelsF (r : Except XreErr NDArray) : Option (List ℚ) :=
  match r with
  | .ok (.f32 g) => some g.pixels
  | _ => none

/-- Whether a regex-search result would survive `float()`:
either no match (so `float()` is never called) or a parsable captured group. -/
def tokParsesB (o : Option (List Char)) : Bool :=
  match o with
  | none => true
  | some t => (parsePyFloatLit t).isSome

/-- The calibration field value determined by a regex-search result:
the default when there was no match, the parsed value otherwise. -/
def tokValue (dflt : ℚ) (o : Option (List Char)) : ℚ :=
  match o with
  | none => dflt
  | some t =>
    match parsePyFloatLit t with
    | some lit => lit.value
    | none => dflt

/-- Claim C1: for every uint16 pixel grid with positive dimensions and any
slope/offset arguments, writing with `rescale=False` and reading back with
`rescale=False` returns exactly the original uint16 grid. -/
theorem roundtrip_no_rescale (g : U16Grid) (slope offset : ℚ)
    (hw : 0 < g.width) (hh : 0 < g.height)
    (hpix : ∀ x ∈ g.pixels, x < 65536) :
    (write_xre_tif (.u16 g) false slope offset).bind (fun f => read_xre_tif f false)
      = .ok (.u16 g) := by
  cases g
  rfl

/-- Witness for `roundtrip_no_rescale` at a concrete 1×1 grid. -/
theorem roundtrip_no_rescale_witness :
    0 < (1 : ℕ) ∧ (∀ x ∈ [(5 : ℕ)], x < 65536) ∧
    (write_xre_tif (.u16 ⟨1, 1, [5]⟩) false 1 0).bind (fun f => read_xre_tif f false)
      = .ok (.u16 ⟨1, 1, [5]⟩) :=
  ⟨by decide, by decide,
    roundtrip_no_rescale ⟨1, 1, [5]⟩ 1 0 (by decide) (by decide) (by decide)⟩

/-- Claim C3 counterexample: the claim quantifies over every pixel grid, but
for a grid that is already uint16 the rescale branch is skipped
(`rescale and data.dtype != np.uint16`), so `slope=0` is accepted and the
file is written. -/
theorem zero_slope_u16_write_succeeds :
    write_xre_tif (.u16 ⟨1, 1, [5]⟩) true 0 0
      = .ok ⟨1, 1, [5], some "slope = 0.000000E+00 offset = 0.000000E+00",
             some "py_xre_tiff"⟩ := rfl

/-- Claim C3 (amended): for every float (non-uint16) pixel grid, writing with
`rescale=True` and `slope=0` fails with the invalid-calibration error; the
error is raised before `img.save`, so no file content is produced. -/
theorem zero_slope_rejected_on_float (g : FloatGrid) (offset : ℚ) :
    write_xre_tif (.f32 g) true 0 offset = .error .slopeZero := rfl

/-- Claim C4: with `rescale=False`, uint16 input passes through unchanged and
float input is clamped into `[0, 65535]` and truncated toward zero; slope and
offset are never applied to the pixel data (the stored samples do not depend
on them), and `-10.0`, `70000.0` store as `0`, `65535`. -/
theorem no_rescale_store_policy (gu : U16Grid) (gf : FloatGrid) (slope offset : ℚ) :
    writtenSamples (write_xre_tif (.u16 gu) false slope offset) = some gu.pixels
    ∧ writtenSamples (write_xre_tif (.f32 gf) false slope offset)
        = some (gf.pixels.map clipCastU16)
    ∧ clipCastU16 (-10) = 0 ∧ clipCastU16 70000 = 65535 ∧ clipCastU16 (7 / 2) = 3 := by
  refine ⟨rfl, rfl, ?_, rfl, ?_⟩
  · simp only [clipCastU16]
    norm_num
  · simp only [clipCastU16]
    norm_num
    decide

/-- Claim C5: the description tag written by `write_xre_tif` is exactly
`"slope = "` followed by the slope in 6-fractional-digit scientific notation,
then `" offset = "` and the offset likewise, with no other tokens; in
particular slope 1 and offset 0 print as `1.000000E+00` and `0.000000E+00`. -/
theorem description_tag_format (g : U16Grid) (slope offset : ℚ) :
    writtenDescription (write_xre_tif (.u16 g) false slope offset)
      = some (some ("slope = " ++ pyFormatSci6 slope ++ " offset = "
                    ++ pyFormatSci6 offset))
    ∧ pyFormatSci6 1 = "1.000000E+00" ∧ pyFormatSci6 0 = "0.000000E+00"
    ∧ pyFormatSci6 1234567 = "1.234567E+06"
    ∧ pyFormatSci6 123456789 = "1.234568E+08"
    ∧ pyFormatSci6 (-3) = "-3.000000E+00" :=
  ⟨rfl, rfl, rfl, rfl, rfl, rfl⟩

/-- Claim C8: with `rescale=True`, for a file whose description tag parses to
the given slope and offset, reading returns a float grid whose every element
is `sample * slope + offset`; the conversion itself always succeeds, with no
restriction on the output range. -/
theorem forward_rescale_formula (f : XreFile) (slope offset : ℚ)
    (h : extractSlopeOffset f.description = .ok (slope, offset)) :
    read_xre_tif f true
      = .ok (.f32 ⟨f.width, f.height,
                   f.samples.map (fun s : ℕ => (s : ℚ) * slope + offset)⟩) := by
  simp [read_xre_tif, h]

/-- Witness for `forward_rescale_formula` on a file with no description tag
(default calibration). -/
theorem forward_rescale_formula_witness :
    extractSlopeOffset (XreFile.mk 1 1 [3] none none).description = .ok (1, 0)
    ∧ read_xre_tif ⟨1, 1, [3], none, none⟩ true
        = .ok (.f32 ⟨1, 1, ([3] : List ℕ).map (fun s : ℕ => (s : ℚ) * 1 + 0)⟩) :=
  ⟨rfl, forward_rescale_formula ⟨1, 1, [3], none, none⟩ 1 0 rfl⟩

/-- Claim C9 (implicit): a grid that is already uint16 is stored verbatim even
with `rescale=True` — slope and offset (including a zero slope, which raises
no error) are not applied to the pixel data, yet are still recorded in the
description tag. -/
theorem u16_rescale_passthrough (g : U16Grid) (slope offset : ℚ) :
    write_xre_tif (.u16 g) true slope offset
      = .ok ⟨g.width, g.height, g.pixels, some (descString slope offset),
             some "py_xre_tiff"⟩ := rfl

/-- Claim C10 (implicit noninterference): reading with `rescale=False` never
consults the description tag — two files identical except for their
description (and software) tags read back as the same uint16 grid. -/
theorem read_raw_ignores_description (f g : XreFile)
    (hw : f.width = g.width) (hh : f.height = g.height)
    (hs : f.samples = g.samples) :
    read_xre_tif f false = read_xre_tif g false := by
  simp [read_xre_tif, hw, hh, hs]

/-- Witness for `read_raw_ignores_description`: a file with an unparsable
description reads (raw) identically to the same file with no description. -/
theorem read_raw_ignores_description_witness :
    (XreFile.mk 1 1 [7] (some "slope = -") (some "py_xre_tiff")).width
        = (XreFile.mk 1 1 [7] none (some "py_xre_tiff")).width
    ∧ (XreFile.mk 1 1 [7] (some "slope = -") (some "py_xre_tiff")).height
        = (XreFile.mk 1 1 [7] none (some "py_xre_tiff")).height
    ∧ (XreFile.mk 1 1 [7] (some "slope = -") (some "py_xre_tiff")).samples
        = (XreFile.mk 1 1 [7] none (some "py_xre_tiff")).samples
    ∧ read_xre_tif ⟨1, 1, [7], some "slope = -", some "py_xre_tiff"⟩ false
        = read_xre_tif ⟨1, 1, [7], none, some "py_xre_tiff"⟩ false :=
  ⟨rfl, rfl, rfl,
    read_raw_ignores_description ⟨1, 1, [7], some "slope = -", some "py_xre_tiff"⟩
      ⟨1, 1, [7], none, some "py_xre_tiff"⟩ rfl rfl rfl⟩

/-- Claim C2 counterexample: the rescale write path does not clamp.  For the
physical value `70000` with slope 1 and offset 0 the spec-side conversion
(truncate, then clamp into `[0, 65535]`) yields `65535`, but the code's
`((data - offset) / slope).astype(np.uint16)` stores `4464 = 70000 - 65536`
(the narrowing cast wraps modulo 2^16). -/
theorem rescale_write_unclamped_counterexample :
    writtenSamples (write_xre_tif (.f32 ⟨1, 1, [70000]⟩) true 1 0) = some [4464]
    ∧ specToStored 70000 1 0 = 65535 ∧ (4464 : ℕ) < 65535 := by
  refine ⟨?_, ?_, by decide⟩
  · simp [write_xre_tif, writtenSamples]
    exact rfl
  · rw [show specToStored 70000 1 0
        = (max 0 (min (truncQ (((70000 : ℚ) - 0) / 1)) 65535)).toNat from rfl,
        show ((70000 : ℚ) - 0) / 1 = 70000 by norm_num]
    exact rfl

/-- Claim C2 (amended): for every float input grid and `slope ≠ 0`, the stored
sample is `(physical - offset) / slope` truncated toward zero and then reduced
modulo 2^16 (wrapped, not clamped) by the uint16 cast; when `slope = 0` the
call fails with the invalid-calibration error. -/
theorem rescale_write_formula (g : FloatGrid) (slope offset : ℚ) :
    (slope ≠ 0 → writtenSamples (write_xre_tif (.f32 g) true slope offset)
        = some (g.pixels.map
            (fun x => (Int.emod (truncQ ((x - offset) / slope)) 65536).toNat)))
    ∧ (slope = 0 → write_xre_tif (.f32 g) true slope offset = .error .slopeZero) := by
  constructor
  · intro hs
    simp [write_xre_tif, hs, writtenSamples, astypeU16]
  · intro hs
    simp [write_xre_tif, hs]

/-- Witness for `rescale_write_formula` at a concrete input. -/
theorem rescale_write_formula_witness :
    (1 : ℚ) ≠ 0
    ∧ writtenSamples (write_xre_tif (.f32 ⟨1, 1, [70000]⟩) true 1 0)
        = some (([(70000 : ℚ)]).map
            (fun x => (Int.emod (truncQ ((x - 0) / 1)) 65536).toNat)) :=
  ⟨by norm_num, (rescale_write_formula ⟨1, 1, [70000]⟩ 1 0).1 (by norm_num)⟩

/-- Claim C6 counterexample: calibration-tag parsing can fail.  On the
description `"slope = -"` the regex `slope\s*=\s*([\d.Ee+-]+)` captures the
group `"-"`, and `float("-")` raises `ValueError`, so the parse (and hence a
rescaled read of such a file) raises instead of degrading to defaults. -/
theorem calibration_parse_failure_counterexample :
    extractSlopeOffset (some "slope = -") = .error .badFloatLit := rfl

/-- Claim C6 (amended): parsing succeeds whenever every captured numeric group
is a valid float literal (and `float()` is only reached on a match).  The two
fields are searched independently and case-insensitively; a field whose
pattern does not match keeps its default, and an absent tag or a tag matching
neither pattern yields `slope = 1, offset = 0`. -/
theorem calibration_parse_amended (d : String)
    (h1 : tokParsesB (searchKey slopeKey d.data) = true)
    (h2 : tokParsesB (searchKey offsetKey d.data) = true) :
    extractSlopeOffset (some d)
      = .ok (tokValue 1 (searchKey slopeKey d.data),
             tokValue 0 (searchKey offsetKey d.data))
    ∧ extractSlopeOffset none = .ok (1, 0)
    ∧ extractSlopeOffset (some "SLOPE = 2") = .ok (2, 0)
    ∧ extractSlopeOffset (some "offset = 3") = .ok (1, 3)
    ∧ extractSlopeOffset (some "no calibration here") = .ok (1, 0) := by
  refine ⟨?_, rfl, ?_, ?_, rfl⟩
  · by_cases hd : d.data.isEmpty
    · have hempty : d.data = [] := by
        cases hl : d.data with
        | nil => rfl
        | cons a l => rw [hl] at hd; simp at hd
      simp only [extractSlopeOffset, hempty]
      rfl
    · rcases hsl : searchKey slopeKey d.data with _ | t
      · rcases hof : searchKey offsetKey d.data with _ | t2
        · simp [extractSlopeOffset, hd, hsl, hof, tokValue]
        · rw [hof] at h2
          simp only [tokParsesB] at h2
          obtain ⟨lit2, hlit2⟩ := Option.isSome_iff_exists.mp h2
          simp [extractSlopeOffset, hd, hsl, hof, hlit2, tokValue]
      · rw [hsl] at h1
        simp only [tokParsesB] at h1
        obtain ⟨lit, hlit⟩ := Option.isSome_iff_exists.mp h1
        rcases hof : searchKey offsetKey d.data with _ | t2
        · simp [extractSlopeOffset, hd, hsl, hof, hlit, tokValue]
        · rw [hof] at h2
          simp only [tokParsesB] at h2
          obtain ⟨lit2, hlit2⟩ := Option.isSome_iff_exists.mp h2
          simp [extractSlopeOffset, hd, hsl, hof, hlit, hlit2, tokValue]
  · rw [show extractSlopeOffset (some "SLOPE = 2")
        = .ok (DecLit.value ⟨false, 2, 0, false, 0⟩, 0) from rfl]
    simp [DecLit.value]
  · rw [show extractSlopeOffset (some "offset = 3")
        = .ok (1, DecLit.value ⟨false, 3, 0, false, 0⟩) from rfl]
    simp [DecLit.value]

/-- Witness for `calibration_parse_amended` at a concrete description. -/
theorem calibration_parse_amended_witness :
    tokParsesB (searchKey slopeKey ("slope = 2.5 offset = 7").data) = true
    ∧ tokParsesB (searchKey offsetKey ("slope = 2.5 offset = 7").data) = true
    ∧ extractSlopeOffset (some "slope = 2.5 offset = 7")
        = .ok (tokValue 1 (searchKey slopeKey ("slope = 2.5 offset = 7").data),
               tokValue 0 (searchKey offsetKey ("slope = 2.5 offset = 7").data)) :=
  ⟨by decide, by decide,
    (calibration_parse_amended "slope = 2.5 offset = 7" (by decide) (by decide)).1⟩

/-- Truncation toward zero is within one of its argument. -/
theorem abs_truncQ_sub_lt_one (q : ℚ) : |(truncQ q : ℚ) - q| < 1 := by
  unfold truncQ
  by_cases h : q < 0
  · simp only [if_pos h, Int.cast_neg]
    have h1 : (⌊-q⌋ : ℚ) ≤ -q := Int.floor_le _
    have h2 : -q < ⌊-q⌋ + 1 := Int.lt_floor_add_one _
    rw [abs_lt]
    constructor <;> linarith
  · simp only [if_neg h]
    have h1 : (⌊q⌋ : ℚ) ≤ q := Int.floor_le _
    have h2 : q < ⌊q⌋ + 1 := Int.lt_floor_add_one _
    rw [abs_lt]
    constructor <;> linarith

/-- When the truncated value already lies in `[0, 65536)`, the wrapping
uint16 cast is the truncation itself. -/
theorem astypeU16_cast_of_range (y : ℚ) (h1 : 0 ≤ truncQ y)
    (h2 : truncQ y < 65536) :
    ((astypeU16 y : ℕ) : ℚ) = ((truncQ y : ℤ) : ℚ) := by
  unfold astypeU16
  rw [show Int.emod (truncQ y) 65536 = truncQ y % 65536 from rfl,
      Int.emod_eq_of_lt h1 h2]
  calc (((truncQ y).toNat : ℕ) : ℚ) = ((((truncQ y).toNat : ℕ) : ℤ) : ℚ) := by
        push_cast
        ring
    _ = ((truncQ y : ℤ) : ℚ) := by rw [Int.toNat_of_nonneg h1]

/-- The description written for slope 1, offset 0 parses back to exactly
`(1, 0)`. -/
theorem extract_fmt_one_zero :
    extractSlopeOffset (some (descString 1 0)) = .ok (1, 0) := by
  rw [show extractSlopeOffset (some (descString 1 0))
      = .ok (DecLit.value ⟨false, 1000000, 6, false, 0⟩,
             DecLit.value ⟨false, 0, 6, false, 0⟩) from rfl]
  norm_num [DecLit.value]

/-- Claim C7 counterexample: the round-trip error bound fails without a range
restriction.  Writing the single-pixel float grid `[70000.0]` with slope 1,
offset 0 stores `4464` (wrapped), which reads back as `4464.0`: an error of
`65536`, far exceeding `1.5 * |slope| = 1.5`. -/
theorem rescaled_roundtrip_counterexample :
    readPixelsF (rtri (.f32 ⟨1, 1, [70000]⟩) 1 0) = some [4464]
    ∧ 3 / 2 * |(1 : ℚ)| < |(4464 : ℚ) - 70000| := by
  constructor
  · have hw : write_xre_tif (.f32 ⟨1, 1, [(70000 : ℚ)]⟩) true 1 0
        = .ok ⟨1, 1, [4464],
               some "slope = 1.000000E+00 offset = 0.000000E+00",
               some "py_xre_tiff"⟩ := by
      rw [show write_xre_tif (.f32 ⟨1, 1, [(70000 : ℚ)]⟩) true 1 0
          = .ok ⟨1, 1, [astypeU16 (((70000 : ℚ) - 0) / 1)],
                 some (descString 1 0), some "py_xre_tiff"⟩ from rfl,
          show ((70000 : ℚ) - 0) / 1 = 70000 by norm_num]
      rfl
    rw [show rtri (.f32 ⟨1, 1, [70000]⟩) 1 0
        = (write_xre_tif (.f32 ⟨1, 1, [(70000 : ℚ)]⟩) true 1 0).bind
            (fun f => read_xre_tif f true) from rfl, hw]
    have hex : extractSlopeOffset
        (some "slope = 1.000000E+00 offset = 0.000000E+00") = .ok (1, 0) := by
      rw [show (("slope = 1.000000E+00 offset = 0.000000E+00") : String)
          = descString 1 0 from rfl]
      exact extract_fmt_one_zero
    simp only [Except.bind, read_xre_tif, hex, readPixelsF, List.map]
    norm_num
  · rw [show (4464 : ℚ) - 70000 = -(65536 : ℚ) by norm_num, abs_neg,
        abs_of_nonneg (by norm_num : (0 : ℚ) ≤ 65536), abs_one]
    norm_num

/-- Claim C7 (amended): for every float grid, slope ≠ 0, and offset such that
the formatted calibration parses back exactly and every element's scaled value
truncates into the uint16 range `[0, 65536)`, the rescaled round-trip returns
`slope * trunc((x - offset)/slope) + offset` per element, which differs from
the original by at most `|slope|` and in particular by at most
`1.5 * |slope|`. -/
theorem rescaled_roundtrip_bound (g : FloatGrid) (slope offset : ℚ)
    (hs : slope ≠ 0)
    (hparse : extractSlopeOffset (some (descString slope offset)) = .ok (slope, offset))
    (hrange : ∀ x ∈ g.pixels, 0 ≤ truncQ ((x - offset) / slope)
                              ∧ truncQ ((x - offset) / slope) < 65536) :
    readPixelsF (rtri (.f32 g) slope offset)
      = some (g.pixels.map
          (fun x => ((truncQ ((x - offset) / slope) : ℤ) : ℚ) * slope + offset))
    ∧ ∀ x ∈ g.pixels,
        |((truncQ ((x - offset) / slope) : ℤ) : ℚ) * slope + offset - x| ≤ |slope|
        ∧ |((truncQ ((x - offset) / slope) : ℤ) : ℚ) * slope + offset - x|
            ≤ 3 / 2 * |slope| := by
  constructor
  · have hw : write_xre_tif (.f32 g) true slope offset
        = .ok ⟨g.width, g.height,
               g.pixels.map (fun x => astypeU16 ((x - offset) / slope)),
               some (descString slope offset), some "py_xre_tiff"⟩ := by
      simp only [write_xre_tif, if_neg hs]
    simp only [rtri, hw, Except.bind, read_xre_tif, hparse, readPixelsF,
      List.map_map]
    refine congrArg some (List.map_congr_left ?_)
    intro x hx
    show ((astypeU16 ((x - offset) / slope) : ℕ) : ℚ) * slope + offset = _
    rw [astypeU16_cast_of_range _ (hrange x hx).1 (hrange x hx).2]
  · intro x hx
    have hq := abs_truncQ_sub_lt_one ((x - offset) / slope)
    have hxo : (x - offset) / slope * slope = x - offset := div_mul_cancel₀ _ hs
    have key : ((truncQ ((x - offset) / slope) : ℤ) : ℚ) * slope + offset - x
        = (((truncQ ((x - offset) / slope) : ℤ) : ℚ) - (x - offset) / slope) * slope := by
      linear_combination hxo
    have hb : |((truncQ ((x - offset) / slope) : ℤ) : ℚ) * slope + offset - x|
        ≤ |slope| := by
      rw [key, abs_mul]
      calc |((truncQ ((x - offset) / slope) : ℤ) : ℚ) - (x - offset) / slope| * |slope|
          ≤ 1 * |slope| :=
            mul_le_mul_of_nonneg_right (le_of_lt hq) (abs_nonneg slope)
        _ = |slope| := one_mul _
    exact ⟨hb, le_trans hb (by have := abs_nonneg slope; linarith)⟩

/-- Witness for `rescaled_roundtrip_bound` at a concrete in-range input. -/
theorem rescaled_roundtrip_bound_witness :
    (1 : ℚ) ≠ 0
    ∧ extractSlopeOffset (some (descString 1 0)) = .ok (1, 0)
    ∧ (∀ x ∈ [(0 : ℚ)], 0 ≤ truncQ ((x - 0) / 1) ∧ truncQ ((x - 0) / 1) < 65536)
    ∧ (readPixelsF (rtri (.f32 ⟨1, 1, [0]⟩) 1 0)
        = some (([(0 : ℚ)]).map
            (fun x => ((truncQ ((x - 0) / 1) : ℤ) : ℚ) * 1 + 0))
      ∧ ∀ x ∈ [(0 : ℚ)],
          |((truncQ ((x - 0) / 1) : ℤ) : ℚ) * 1 + 0 - x| ≤ |(1 : ℚ)|
          ∧ |((truncQ ((x - 0) / 1) : ℤ) : ℚ) * 1 + 0 - x| ≤ 3 / 2 * |(1 : ℚ)|) := by
  have h3 : ∀ x ∈ [(0 : ℚ)], 0 ≤ truncQ ((x - 0) / 1) ∧ truncQ ((x - 0) / 1) < 65536 := by
    intro x hx
    rw [List.mem_singleton] at hx
    subst hx
    rw [show ((0 : ℚ) - 0) / 1 = 0 by norm_num]
    exact ⟨by decide, by decide⟩
  exact ⟨by norm_num, extract_fmt_one_zero, h3,
    rescaled_roundtrip_bound ⟨1, 1, [0]⟩ 1 0 (by norm_num) extract_fmt_one_zero h3⟩

end XreTiff
